import Mathlib

/-!
Verification development for the HeuristicLogix Intelligence Service
(`src/IntelligenceService/main.py`), a Kafka-consuming event-enrichment
pipeline.  The Python source is shallowly embedded below: JSON payloads
become the `PyVal` inductive, the SQL store becomes a list of rows with a
unique `event_id` key, the Gemini annotation call becomes an oracle
argument (`Option AiJson`: `none` models a response whose body fails
`json.loads`), and Python exceptions become `Except PyError` values that
the embedded `try/except` blocks catch exactly where the source does.

Two facts of the source are load-bearing and are embedded faithfully:

1. In `main.py` the bodies of `class ExpertDecisionEvent` (lines 118-157)
   and `class HistoricDeliveryEvent` (lines 186-210) consist only of a
   docstring: the field declarations and the `__post_init__` method that
   follow are written at column 0, i.e. at *module* scope, outside the
   class suite.  Both pydantic models therefore declare no fields at all.
   Construction from any mapping succeeds (pydantic ignores unknown
   keyword arguments by default), and every subsequent attribute access
   (`decision.feedback_id`, `delivery.ingestion_batch_id`, ...) raises
   `AttributeError`.  The embedding gives both types no fields and makes
   each accessor return `Except.error PyError.attributeError`.

2. In `consume_kafka_messages` (lines 260-287) the log statement at line
   267 calls `event_data.get(...)` *before* the per-record `try` block;
   the per-record `except` (line 282) therefore does not protect it, and
   an exception there is only caught by the outer `except` (line 286)
   which ends the consuming loop.

Wall-clock timing (`processing_time_ms`) and the precise textual rendering
of Python floats are abstracted: times are fixed to `0` and rationals are
rendered by `ratStr`.  No claim depends on either.
-/

/-- Python exception classes that the relevant code paths can raise. -/
inductive PyError
  | attributeError
  | typeError
  | validationError
  | jsonDecodeError
  deriving DecidableEq

/-- A JSON-decoded Python value, as produced by the Kafka value
deserializer `lambda m: json.loads(m.decode("utf-8"))` (line 234). -/
inductive PyVal
  | str (s : String)
  | num (q : ℚ)
  | bool (b : Bool)
  | none
  | list (xs : List PyVal)
  | dict (fields : List (String × PyVal))

/-- Key lookup in a JSON object (`d[k]` / key search of a Python dict). -/
def pyLookup (fs : List (String × PyVal)) (k : String) : Option PyVal :=
  (fs.find? (fun p => p.1 == k)).map (fun p => p.2)

/-- Python `d.get(k, default)`: returns the stored value (even `None`)
when the key is present, the default otherwise; raises `AttributeError`
when the receiver is not a mapping. -/
def pyGetD (v : PyVal) (k : String) (dflt : PyVal) : Except PyError PyVal :=
  match v with
  | .dict fs => .ok ((pyLookup fs k).getD dflt)
  | _ => .error .attributeError

/-- Python `k in v` (membership test), as used at line 271. -/
def pyContainsKey (v : PyVal) (k : String) : Except PyError Bool :=
  match v with
  | .dict fs => .ok (fs.any (fun p => p.1 == k))
  | .list xs => .ok (xs.any (fun x => match x with | .str s => s == k | _ => false))
  | .str s => .ok (s == k)
  | _ => .error .typeError

/-- ASCII lower-casing, modelling Python `str.lower()` on the ASCII event
tags this service compares. -/
def pyLower (s : String) : String :=
  String.mk (s.data.map Char.toLower)

/-- Python `.lower()` on a JSON value: only strings have the method. -/
def pyLowerVal : PyVal → Except PyError String
  | .str s => .ok (pyLower s)
  | _ => .error .attributeError

/-- Whether the first character list starts the second one. -/
def startsWithCh : List Char → List Char → Bool
  | [], _ => true
  | _ :: _, [] => false
  | n :: ns, h :: hs => n == h && startsWithCh ns hs

/-- Whether the first character list occurs inside the second one. -/
def hasSubCh (n : List Char) : List Char → Bool
  | [] => startsWithCh n []
  | h :: hs => startsWithCh n (h :: hs) || hasSubCh n hs

/-- Python substring containment `needle in hay`. -/
def pyInStr (needle hay : String) : Bool :=
  hasSubCh needle.data hay.data

/-- Python `list.insert(i, a)`: inserts before index `i`, appending when
`i` is past the end. -/
def pyInsert {α : Type} : Nat → α → List α → List α
  | 0, a, l => a :: l
  | _ + 1, a, [] => [a]
  | n + 1, a, x :: xs => x :: pyInsert n a xs

/-- Truthiness of an optional float (`None` and `0.0` are falsy). -/
def truthyNum : Option ℚ → Bool
  | Option.some w => if w = 0 then false else true
  | Option.none => false

/-- Truthiness of an optional string (`None` and `""` are falsy). -/
def truthyStr : Option String → Bool
  | Option.some s => if s = "" then false else true
  | Option.none => false

/-- Deterministic textual rendering of a rational, standing in for
Python's float formatting inside log/reasoning strings (no claim depends
on the exact digits). -/
def ratStr (q : ℚ) : String :=
  toString q.num ++ "/" ++ toString q.den

/-- Rendering of an optional float inside an f-string (`None` prints as
`"None"`). -/
def pyShowOptNum : Option ℚ → String
  | Option.some q => ratStr q
  | Option.none => "None"

/-- The parsed `IntelligenceEnrichment` pydantic model (lines 169-177),
which is also the enrichment row written to the `AIEnrichments` table
(`store_enrichment`, lines 640-648, serialises the two list fields as
JSON text; the row is modelled structurally). -/
structure IntelligenceEnrichment where
  event_id : String
  event_type : String
  ai_tags : List String
  ai_confidence_score : ℚ
  ai_reasoning : String
  ai_suggested_actions : List String
  processing_time_ms : ℚ
  deriving DecidableEq

/-- The `AIEnrichments` table: rows with a unique index on `EventId`
(line 92). -/
abbrev Store := List IntelligenceEnrichment

/-- Whether a row with this `EventId` exists (the unique-key test). -/
def storeHasKey (s : Store) (k : String) : Bool :=
  s.any (fun r => r.event_id == k)

/-- External behaviour visible to one processing call.  `db = none`
models `AsyncSessionLocal = None` (connection string not set, line 82);
`checkRaises` and `insertRaises` are oracles for the database raising
inside `check_enrichment_exists` resp. `store_enrichment`. -/
structure ServiceState where
  db : Option Store
  geminiConfigured : Bool
  checkRaises : Bool
  insertRaises : Bool
  deriving DecidableEq

/-- `check_enrichment_exists` (lines 311-332): returns `False` when the
database is not configured; runs the `SELECT` otherwise; any exception is
caught and logged and `False` is returned.  The function never raises,
which the embedding reflects by returning a plain `Bool`. -/
def check_enrichment_exists (db : Option Store) (queryRaises : Bool) (event_id : String) : Bool :=
  match db with
  | Option.none => false
  | Option.some s => if queryRaises then false else storeHasKey s event_id

/-- Which log statement `store_enrichment` executed. -/
inductive StoreLog
  | warnNotConfigured
  | infoStored
  | errorStoring
  deriving DecidableEq

/-- `store_enrichment` (lines 631-655): skips with a warning when the
database is not configured; otherwise inserts the row and commits.  Any
exception — a uniqueness violation on `EventId` included — reaches the
single `except Exception` (line 654), which logs
`"Error storing enrichment: ..."` at error level and returns; nothing is
re-raised and the table is unchanged. -/
def store_enrichment (db : Option Store) (insertRaises : Bool)
    (e : IntelligenceEnrichment) : Option Store × StoreLog :=
  match db with
  | Option.none => (Option.none, .warnNotConfigured)
  | Option.some s =>
      if insertRaises || storeHasKey s e.event_id then (Option.some s, .errorStoring)
      else (Option.some (s ++ [e]), .infoStored)

/-- The `ExpertDecisionEvent` pydantic model as the interpreter actually
sees it: its class suite (lines 118-157) holds only the docstring — the
field annotations `feedback_id: str`, ..., and the `__post_init__`
method are written at column 0 and so live at module scope — hence the
model declares no fields. -/
structure ExpertDecisionEvent

/-- Attribute access `decision.feedback_id`: the model has no such field
(see `ExpertDecisionEvent`), so Python raises `AttributeError`. -/
def ExpertDecisionEvent.feedback_id (_ : ExpertDecisionEvent) : Except PyError String :=
  .error .attributeError

/-- Attribute access `decision.selected_truck_id`: raises, same reason. -/
def ExpertDecisionEvent.selected_truck_id (_ : ExpertDecisionEvent) : Except PyError String :=
  .error .attributeError

/-- Attribute access `decision.primary_reason`: raises, same reason. -/
def ExpertDecisionEvent.primary_reason (_ : ExpertDecisionEvent) : Except PyError String :=
  .error .attributeError

/-- Attribute access `decision.secondary_reasons`: raises, same reason. -/
def ExpertDecisionEvent.secondary_reasons (_ : ExpertDecisionEvent) :
    Except PyError (List String) :=
  .error .attributeError

/-- Attribute access `decision.decision_time_seconds`: raises, same
reason. -/
def ExpertDecisionEvent.decision_time_seconds (_ : ExpertDecisionEvent) : Except PyError ℚ :=
  .error .attributeError

/-- Attribute access `decision.expert_notes`: raises, same reason. -/
def ExpertDecisionEvent.expert_notes (_ : ExpertDecisionEvent) :
    Except PyError (Option String) :=
  .error .attributeError

/-- `ExpertDecisionEvent(**event_data)` (line 340): splatting a
non-mapping raises `TypeError`; a mapping validates against a model with
no declared fields, so every mapping — whatever keys it has or lacks —
is accepted and unknown keys are ignored (pydantic's default). -/
def expertDecisionParse : PyVal → Except PyError ExpertDecisionEvent
  | .dict _ => .ok ExpertDecisionEvent.mk
  | _ => .error .typeError

/-- The `TelemetryEvent` pydantic model (lines 160-166), whose suite is
correctly indented: five required fields. -/
structure TelemetryEvent where
  event_id : String
  event_type : String
  aggregate_id : String
  timestamp_utc : String
  payload : List (String × PyVal)

/-- Required string field extraction during pydantic validation. -/
def reqStr (fs : List (String × PyVal)) (k : String) : Except PyError String :=
  match pyLookup fs k with
  | Option.some (.str s) => .ok s
  | _ => .error .validationError

/-- Required mapping field extraction during pydantic validation. -/
def reqDict (fs : List (String × PyVal)) (k : String) :
    Except PyError (List (String × PyVal)) :=
  match pyLookup fs k with
  | Option.some (.dict d) => .ok d
  | _ => .error .validationError

/-- `TelemetryEvent(**event_data)` (line 405): `TypeError` on a
non-mapping, `ValidationError` when a required field is missing or of the
wrong shape. -/
def telemetryParse : PyVal → Except PyError TelemetryEvent
  | .dict fs => do
      let eid ← reqStr fs "event_id"
      let ety ← reqStr fs "event_type"
      let agg ← reqStr fs "aggregate_id"
      let ts ← reqStr fs "timestamp_utc"
      let pl ← reqDict fs "payload"
      pure ⟨eid, ety, agg, ts, pl⟩
  | _ => .error .typeError

/-- The `HistoricDeliveryEvent` pydantic model as the interpreter sees
it: its class suite (lines 186-210) also holds only the docstring, the
field annotations being at column 0 / module scope, so it too declares no
fields. -/
structure HistoricDeliveryEvent

/-- Attribute access `delivery.ingestion_batch_id`: the model has no such
field (see `HistoricDeliveryEvent`), so Python raises `AttributeError`. -/
def HistoricDeliveryEvent.ingestion_batch_id (_ : HistoricDeliveryEvent) :
    Except PyError String :=
  .error .attributeError

/-- Attribute access `delivery.truck_license_plate`: raises, same
reason. -/
def HistoricDeliveryEvent.truck_license_plate (_ : HistoricDeliveryEvent) :
    Except PyError String :=
  .error .attributeError

/-- Attribute access `delivery.delivery_date`: raises, same reason. -/
def HistoricDeliveryEvent.delivery_date (_ : HistoricDeliveryEvent) :
    Except PyError String :=
  .error .attributeError

/-- Attribute access `delivery.quantity`: raises, same reason. -/
def HistoricDeliveryEvent.quantity (_ : HistoricDeliveryEvent) :
    Except PyError (Option ℚ) :=
  .error .attributeError

/-- Attribute access `delivery.raw_unit`: raises, same reason. -/
def HistoricDeliveryEvent.raw_unit (_ : HistoricDeliveryEvent) :
    Except PyError (Option String) :=
  .error .attributeError

/-- Attribute access `delivery.taxonomy_id`: raises, same reason. -/
def HistoricDeliveryEvent.taxonomy_id (_ : HistoricDeliveryEvent) :
    Except PyError (Option String) :=
  .error .attributeError

/-- Attribute access `delivery.is_weight_calculated`: raises, same
reason. -/
def HistoricDeliveryEvent.is_weight_calculated (_ : HistoricDeliveryEvent) :
    Except PyError Bool :=
  .error .attributeError

/-- Attribute access `delivery.total_weight_kg`: raises, same reason. -/
def HistoricDeliveryEvent.total_weight_kg (_ : HistoricDeliveryEvent) :
    Except PyError (Option ℚ) :=
  .error .attributeError

/-- Attribute access `delivery.raw_description`: raises, same reason. -/
def HistoricDeliveryEvent.raw_description (_ : HistoricDeliveryEvent) :
    Except PyError String :=
  .error .attributeError

/-- Attribute access `delivery.client_name`: raises, same reason. -/
def HistoricDeliveryEvent.client_name (_ : HistoricDeliveryEvent) :
    Except PyError String :=
  .error .attributeError

/-- Attribute access `delivery.delivery_address`: raises, same reason. -/
def HistoricDeliveryEvent.delivery_address (_ : HistoricDeliveryEvent) :
    Except PyError String :=
  .error .attributeError

/-- Attribute access `delivery.service_time_minutes`: raises, same
reason. -/
def HistoricDeliveryEvent.service_time_minutes (_ : HistoricDeliveryEvent) :
    Except PyError ℚ :=
  .error .attributeError

/-- Attribute access `delivery.expert_notes`: raises, same reason. -/
def HistoricDeliveryEvent.expert_notes (_ : HistoricDeliveryEvent) :
    Except PyError (Option String) :=
  .error .attributeError

/-- Attribute access `delivery.override_reason`: raises, same reason. -/
def HistoricDeliveryEvent.override_reason (_ : HistoricDeliveryEvent) :
    Except PyError (Option String) :=
  .error .attributeError

/-- Attribute access `delivery.is_taxonomy_verified`: raises, same
reason. -/
def HistoricDeliveryEvent.is_taxonomy_verified (_ : HistoricDeliveryEvent) :
    Except PyError Bool :=
  .error .attributeError

/-- `HistoricDeliveryEvent(**event_data)` (line 476): `TypeError` on a
non-mapping, and any mapping accepted, exactly as for
`expertDecisionParse`. -/
def historicParse : PyVal → Except PyError HistoricDeliveryEvent
  | .dict _ => .ok HistoricDeliveryEvent.mk
  | _ => .error .typeError

/-- The JSON object decoded from the Gemini annotation response text by
`json.loads(response.text)`.  Each field is `none` when the key is
absent; `dict.get(key, default)` becomes `Option.getD`.  The first four
keys are those requested by the decision and telemetry prompts (lines
364, 428); the rest are the extra keys of the historic prompt (lines
543-552). -/
structure AiJson where
  tags : Option (List String) := Option.none
  confidence_score : Option ℚ := Option.none
  reasoning : Option String := Option.none
  suggested_actions : Option (List String) := Option.none
  product_category : Option String := Option.none
  suggested_standard_description : Option String := Option.none
  suggested_weight_factor : Option ℚ := Option.none
  suggested_unit : Option String := Option.none
  patterns : Option (List String) := Option.none
  insights : Option String := Option.none
  training_recommendations : Option (List String) := Option.none
  capacity_score : Option ℚ := Option.none
  weight_validation : Option String := Option.none
  deriving DecidableEq

/-- The `IntelligenceEnrichment` built for an expert decision (lines
377-385): `event_type` is the literal `"expert.decision"` and each AI
field falls back to `ai_response.get(key, neutral default)`. -/
def mkDecisionEnrichment (feedback_id : String) (resp : AiJson) (ptMs : ℚ) :
    IntelligenceEnrichment :=
  { event_id := feedback_id
    event_type := "expert.decision"
    ai_tags := resp.tags.getD []
    ai_confidence_score := resp.confidence_score.getD 0
    ai_reasoning := resp.reasoning.getD ""
    ai_suggested_actions := resp.suggested_actions.getD []
    processing_time_ms := ptMs }

/-- The `IntelligenceEnrichment` built for a telemetry event (lines
441-448): `event_type` is copied from the event, with the same
`ai_response.get` fallbacks as the decision path. -/
def mkTelemetryEnrichment (t : TelemetryEvent) (resp : AiJson) (ptMs : ℚ) :
    IntelligenceEnrichment :=
  { event_id := t.event_id
    event_type := t.event_type
    ai_tags := resp.tags.getD []
    ai_confidence_score := resp.confidence_score.getD 0
    ai_reasoning := resp.reasoning.getD ""
    ai_suggested_actions := resp.suggested_actions.getD []
    processing_time_ms := ptMs }

/-- The composite key of line 479:
`f"{delivery.ingestion_batch_id}_{delivery.truck_license_plate}_{delivery.delivery_date}"`. -/
def historicEventId (ingestion_batch_id truck_license_plate delivery_date : String) : String :=
  ingestion_batch_id ++ "_" ++ truck_license_plate ++ "_" ++ delivery_date

/-- The `IntelligenceEnrichment` built for a historic delivery from the
parsed response (lines 571-615): the returned `patterns` list gets
`PRODUCT:`/`UNIT:`/`TAXONOMY:` entries prefixed at indices 0/1/2 (the
latter two conditionally), `capacity_score` defaults to `50.0`, and
`ai_reasoning` is the synthesized multi-line summary of lines 591-605. -/
def mkHistoricEnrichment (event_id raw_description : String) (quantity : Option ℚ)
    (raw_unit : Option String) (taxonomy_id : Option String) (is_taxonomy_verified : Bool)
    (total_weight_kg : Option ℚ) (is_weight_calculated : Bool)
    (resp : AiJson) (ptMs : ℚ) : IntelligenceEnrichment :=
  let has_taxonomy := taxonomy_id.isSome
  let weight_source :=
    if is_weight_calculated then "calculated"
    else if truthyNum total_weight_kg then "provided" else "missing"
  let patterns0 := resp.patterns.getD []
  let patterns1 := pyInsert 0 ("PRODUCT:" ++ raw_description) patterns0
  let patterns2 :=
    if truthyNum quantity && truthyStr raw_unit then
      pyInsert 1 ("UNIT:" ++ raw_unit.getD "") patterns1
    else patterns1
  let patterns3 :=
    if has_taxonomy then
      pyInsert 2 ("TAXONOMY:" ++ (if is_taxonomy_verified then "VERIFIED" else "PENDING"))
        patterns2
    else patterns2
  let insights := resp.insights.getD ""
  let recommendations := resp.training_recommendations.getD []
  let capacity_score := resp.capacity_score.getD 50
  let weight_validation := resp.weight_validation.getD ""
  let suggested_description := resp.suggested_standard_description.getD raw_description
  let suggested_weight_factor := resp.suggested_weight_factor.getD 0
  let suggested_unit := resp.suggested_unit.getD (raw_unit.getD "")
  let product_category := resp.product_category.getD "OTHER"
  let full_reasoning :=
    "Product: " ++ raw_description ++
    "\nCategory: " ++ product_category ++
    "\nQuantity/Unit: " ++ pyShowOptNum quantity ++ " " ++
      (if truthyStr raw_unit then raw_unit.getD "" else "N/A") ++
    "\nWeight: " ++ pyShowOptNum total_weight_kg ++ "kg (" ++ weight_source ++ ")" ++
    "\nTaxonomy: " ++
      (if is_taxonomy_verified then "Verified"
       else if has_taxonomy then "Pending" else "Not found") ++
    "\n\nInsights: " ++ insights ++
    "\n\nWeight Validation: " ++ weight_validation ++
    "\n\nAI Taxonomy Suggestions:" ++
    "\n- Standard Description: " ++ suggested_description ++
    "\n- Weight Factor: " ++ ratStr suggested_weight_factor ++ " kg/unit" ++
    "\n- Standard Unit: " ++ suggested_unit ++ "\n"
  { event_id := event_id
    event_type := "historic_delivery_unit_aware"
    ai_tags := patterns3
    ai_confidence_score := capacity_score
    ai_reasoning := full_reasoning
    ai_suggested_actions := recommendations
    processing_time_ms := ptMs }

/-- How one call to a `process_*` function ended, i.e. which terminal
log statement of that function ran. -/
inductive Outcome
  | duplicateSkip
  | enriched (slog : StoreLog)
  | geminiSkipped
  | errorLogged
  | unknownSkipped
  deriving DecidableEq

/-- Net effect of one `process_*` call: the database afterwards, how many
Gemini calls were made, and the terminal outcome. -/
structure ProcResult where
  db : Option Store
  annotationCalls : Nat
  outcome : Outcome
  deriving DecidableEq

/-- The field accesses inside the decision prompt f-string (lines
354-357), in source order; on this model every one of them raises. -/
def promptFieldBlock (d : ExpertDecisionEvent) : Except PyError Unit := do
  let _ ← d.primary_reason
  let _ ← d.secondary_reasons
  let _ ← d.decision_time_seconds
  let _ ← d.expert_notes
  pure ()

/-- `process_expert_decision` (lines 335-397).  The whole body sits in a
`try` whose `except Exception` (line 396) only logs, so the function
never raises; the embedding inlines that catch as the `.error`
branches.  The Gemini call is the `orc` oracle; `orc = none` models a
response body on which `json.loads` (line 373) raises.  Note the first
statement after construction is the attribute access
`decision.feedback_id` (line 343), which on this model always raises. -/
def process_expert_decision (st : ServiceState) (orc : Option AiJson) (v : PyVal) :
    ProcResult :=
  match expertDecisionParse v with
  | .error _ => ⟨st.db, 0, .errorLogged⟩
  | .ok d =>
    match d.feedback_id with
    | .error _ => ⟨st.db, 0, .errorLogged⟩
    | .ok fid =>
      if check_enrichment_exists st.db st.checkRaises fid then ⟨st.db, 0, .duplicateSkip⟩
      else if st.geminiConfigured then
        match promptFieldBlock d with
        | .error _ => ⟨st.db, 0, .errorLogged⟩
        | .ok _ =>
          match orc with
          | Option.none => ⟨st.db, 1, .errorLogged⟩
          | Option.some resp =>
            let pr := store_enrichment st.db st.insertRaises (mkDecisionEnrichment fid resp 0)
            ⟨pr.1, 1, .enriched pr.2⟩
      else ⟨st.db, 0, .geminiSkipped⟩

/-- `process_telemetry_event` (lines 400-461): same shape as the decision
path, but `TelemetryEvent` parses properly, so the pipeline genuinely
runs: idempotency check on `event_id`, Gemini call, response parse,
enrichment build, store. -/
def process_telemetry_event (st : ServiceState) (orc : Option AiJson) (v : PyVal) :
    ProcResult :=
  match telemetryParse v with
  | .error _ => ⟨st.db, 0, .errorLogged⟩
  | .ok t =>
    if check_enrichment_exists st.db st.checkRaises t.event_id then ⟨st.db, 0, .duplicateSkip⟩
    else if st.geminiConfigured then
      match orc with
      | Option.none => ⟨st.db, 1, .errorLogged⟩
      | Option.some resp =>
        let pr := store_enrichment st.db st.insertRaises (mkTelemetryEnrichment t resp 0)
        ⟨pr.1, 1, .enriched pr.2⟩
    else ⟨st.db, 0, .geminiSkipped⟩

/-- The values lines 489-491 and the historic prompt f-string read off
`delivery`, in source order.  On this model the very first access
(`delivery.quantity`) raises. -/
structure HistoricFieldVals where
  quantity : Option ℚ
  raw_unit : Option String
  taxonomy_id : Option String
  is_weight_calculated : Bool
  total_weight_kg : Option ℚ
  raw_description : String
  client_name : String
  delivery_address : String
  service_time_minutes : ℚ
  expert_notes : Option String
  override_reason : Option String
  is_taxonomy_verified : Bool

/-- Sequenced field reads of lines 489-509 (each raises on this model). -/
def historicFieldBlock (d : HistoricDeliveryEvent) : Except PyError HistoricFieldVals := do
  let q ← d.quantity
  let ru ← d.raw_unit
  let tx ← d.taxonomy_id
  let iwc ← d.is_weight_calculated
  let twk ← d.total_weight_kg
  let rd ← d.raw_description
  let cn ← d.client_name
  let da ← d.delivery_address
  let stm ← d.service_time_minutes
  let en ← d.expert_notes
  let orr ← d.override_reason
  let itv ← d.is_taxonomy_verified
  pure ⟨q, ru, tx, iwc, twk, rd, cn, da, stm, en, orr, itv⟩

/-- `process_historic_delivery` (lines 464-628): derives the composite
`event_id` (line 479) from three attribute reads — on this model the
first of them raises, so the whole body falls to the `except` of line
627 — then the idempotency check, the Gemini batch-mode branch (guarded
by `gemini_model and is_historic`), response parse, unit-aware
enrichment build, and store. -/
def process_historic_delivery (st : ServiceState) (orc : Option AiJson) (v : PyVal)
    (is_historic : Bool) : ProcResult :=
  match historicParse v with
  | .error _ => ⟨st.db, 0, .errorLogged⟩
  | .ok d =>
    match d.ingestion_batch_id with
    | .error _ => ⟨st.db, 0, .errorLogged⟩
    | .ok b =>
      match d.truck_license_plate with
      | .error _ => ⟨st.db, 0, .errorLogged⟩
      | .ok p =>
        match d.delivery_date with
        | .error _ => ⟨st.db, 0, .errorLogged⟩
        | .ok dd =>
          let event_id := historicEventId b p dd
          if check_enrichment_exists st.db st.checkRaises event_id then
            ⟨st.db, 0, .duplicateSkip⟩
          else
            match historicFieldBlock d with
            | .error _ => ⟨st.db, 0, .errorLogged⟩
            | .ok fb =>
              if st.geminiConfigured && is_historic then
                match orc with
                | Option.none => ⟨st.db, 1, .errorLogged⟩
                | Option.some resp =>
                  let enr := mkHistoricEnrichment event_id fb.raw_description fb.quantity
                    fb.raw_unit fb.taxonomy_id fb.is_taxonomy_verified fb.total_weight_kg
                    fb.is_weight_calculated resp 0
                  let pr := store_enrichment st.db st.insertRaises enr
                  ⟨pr.1, 1, .enriched pr.2⟩
              else ⟨st.db, 0, .geminiSkipped⟩

/-- Which handler a CloudEvent type tag selects. -/
inductive RouteKind
  | historic
  | decision
  | telemetry
  | unknown
  deriving DecidableEq

/-- The type-tag dispatch chain of `process_cloud_event` (lines
299-306), applied to a string tag: exact comparison with
`"HistoricDeliveryIngested"` first, then case-insensitive substring
tests for `"expert"`/`"decision"`, then for `"telemetry"`, else
unknown. -/
def cloudEventRoute (event_type : String) : RouteKind :=
  if event_type == "HistoricDeliveryIngested" then .historic
  else if pyInStr "expert" (pyLower event_type) || pyInStr "decision" (pyLower event_type) then
    .decision
  else if pyInStr "telemetry" (pyLower event_type) then .telemetry
  else .unknown

/-- `process_cloud_event` (lines 290-306).  It has no `try` of its own,
so anything it raises escapes to the caller: `.get` on a non-mapping
`extensions` block, `.lower()` on a non-string `is_historic` value, and
`.lower()` on a non-string type tag (the preceding `==` comparison with
the historic tag is `False` for any non-string, raising nothing).  The
`is_historic` extension is computed (line 297) before the dispatch
chain runs. -/
def process_cloud_event (st : ServiceState) (orc : Option AiJson) (ce : PyVal) :
    Except PyError ProcResult := do
  let etv ← pyGetD ce "type" (.str "")
  let dat ← pyGetD ce "data" (.dict [])
  let exts ← pyGetD ce "extensions" (.dict [])
  let ihv ← pyGetD exts "is_historic" (.str "false")
  let ihs ← pyLowerVal ihv
  let is_historic := ihs == "true"
  match etv with
  | .str s =>
      match cloudEventRoute s with
      | .historic => pure (process_historic_delivery st orc dat is_historic)
      | .decision => pure (process_expert_decision st orc dat)
      | .telemetry => pure (process_telemetry_event st orc dat)
      | .unknown => pure ⟨st.db, 0, .unknownSkipped⟩
  | _ => throw PyError.attributeError

/-- One record as delivered by the bus: its topic and its JSON-decoded
value. -/
structure KafkaMessage where
  topic : String
  value : PyVal

/-- The log statement at line 267,
`event_data.get('type', event_data.get('event_type', 'unknown'))`:
it runs *before* the per-record `try` of line 269, and raises
`AttributeError` when the payload is not a mapping. -/
def logLineAccess : PyVal → Except PyError Unit
  | .dict _ => .ok ()
  | _ => .error .attributeError

/-- The dispatch inside the per-record `try` (lines 271-281): CloudEvent
check by key membership, then the fixed topic table, else an
unknown-topic warning. -/
def dispatchRecord (st : ServiceState) (orc : Option AiJson) (topic : String) (v : PyVal) :
    Except PyError ProcResult := do
  let hasType ← pyContainsKey v "type"
  if hasType then process_cloud_event st orc v
  else if topic == "expert.decisions.v1" then pure (process_expert_decision st orc v)
  else if topic == "heuristic.telemetry.v1" then pure (process_telemetry_event st orc v)
  else if topic == "historic.deliveries.v1" then pure (process_historic_delivery st orc v true)
  else pure ⟨st.db, 0, .unknownSkipped⟩

/-- What the consumer loop records about one message. -/
inductive StepLog
  | processed (o : Outcome)
  | recordErrorLogged
  deriving DecidableEq

/-- One iteration of the `async for` body (lines 263-283): the line-267
log access first (unprotected), then the dispatch inside the per-record
`try`, whose `except Exception` (line 282) logs and lets the loop
continue.  A `.error` return here is an exception that escaped the
per-record handler. -/
def consumeStep (st : ServiceState) (orc : Option AiJson) (m : KafkaMessage) :
    Except PyError (ServiceState × StepLog) :=
  match logLineAccess m.value with
  | .error e => .error e
  | .ok _ =>
    match dispatchRecord st orc m.topic m.value with
    | .error _ => .ok (st, .recordErrorLogged)
    | .ok r => .ok ({ st with db := r.db }, .processed r.outcome)

/-- `consume_kafka_messages` (lines 260-287) over a finite delivered
stream, each message paired with the oracle for the Gemini call it may
make.  An exception escaping an iteration is caught by the *outer*
`except Exception` (line 286), which logs
`"Fatal error in Kafka consumer"` and ends the function: the returned
flag is `true` and the remaining messages are never processed. -/
def consume_kafka_messages (st : ServiceState) :
    List (KafkaMessage × Option AiJson) → ServiceState × List StepLog × Bool
  | [] => (st, [], false)
  | (m, orc) :: rest =>
    match consumeStep st orc m with
    | .error _ => (st, [], true)
    | .ok (st', l) =>
      match consume_kafka_messages st' rest with
      | (stf, ls, fatal) => (stf, l :: ls, fatal)

/-- A matcher-table rule for the amended dispatch description: either a
case-sensitive exact tag, or a case-insensitive substring test. -/
inductive TagRule
  | exactTag (s : String) (k : RouteKind)
  | lowerSub (s : String) (k : RouteKind)

/-- The kind a rule routes to. -/
def ruleKind : TagRule → RouteKind
  | .exactTag _ k => k
  | .lowerSub _ k => k

/-- Whether a rule matches a tag. -/
def ruleMatches : TagRule → String → Bool
  | .exactTag s _, t => t == s
  | .lowerSub s _, t => pyInStr s (pyLower t)

/-- First-match-wins evaluation of an ordered rule table, defaulting to
`unknown`. -/
def routeByTable : List TagRule → String → RouteKind
  | [], _ => .unknown
  | r :: rs, t => if ruleMatches r t then ruleKind r else routeByTable rs t

/-- The dispatch of `process_cloud_event` as an explicit ordered table:
one case-sensitive exact historic rule, then case-insensitive substring
rules for decision and telemetry. -/
def amendedDispatchTable : List TagRule :=
  [.exactTag "HistoricDeliveryIngested" .historic,
   .lowerSub "expert" .decision,
   .lowerSub "decision" .decision,
   .lowerSub "telemetry" .telemetry]

/-- A Gemini response that parsed as a JSON object carrying none of the
expected keys. -/
def emptyAiJson : AiJson := {}

/-- A fully configured healthy state: empty enrichment table, Gemini
configured, database healthy. -/
def stCfg : ServiceState :=
  { db := Option.some [], geminiConfigured := true, checkRaises := false, insertRaises := false }

/-- A well-formed telemetry event payload. -/
def telemetryV1 : PyVal := .dict
  [("event_id", .str "T1"), ("event_type", .str "RouteComputed"),
   ("aggregate_id", .str "A1"), ("timestamp_utc", .str "2024-01-01T00:00:00Z"),
   ("payload", .dict [])]

/-- The parse of `telemetryV1`. -/
def telemetryV1Parsed : TelemetryEvent :=
  ⟨"T1", "RouteComputed", "A1", "2024-01-01T00:00:00Z", []⟩

/-- A telemetry event whose natural id collides with the stored row
`recF1`. -/
def telemetryF1 : PyVal := .dict
  [("event_id", .str "F1"), ("event_type", .str "RouteComputed"),
   ("aggregate_id", .str "A1"), ("timestamp_utc", .str "2024-01-01T00:00:00Z"),
   ("payload", .dict [])]

/-- An enrichment row keyed `"F1"`. -/
def recF1 : IntelligenceEnrichment :=
  { event_id := "F1", event_type := "expert.decision", ai_tags := [],
    ai_confidence_score := 0, ai_reasoning := "", ai_suggested_actions := [],
    processing_time_ms := 0 }

/-- A table already holding the `"F1"` row. -/
def storeF1 : Store := [recF1]

/-- A record whose payload decoded to a JSON array, not an
attribute-value mapping. -/
def badListMsg : KafkaMessage := ⟨"heuristic.telemetry.v1", .list []⟩

/-- A record carrying `telemetryV1` on the telemetry topic. -/
def goodTelemetryMsg : KafkaMessage := ⟨"heuristic.telemetry.v1", telemetryV1⟩

/-- The spec's scenario-1 expert decision payload, using current field
names. -/
def decisionF1 : PyVal := .dict
  [("feedback_id", .str "F1"), ("conduce_id", .str "C1"),
   ("selected_truck_id", .str "T9"), ("primary_reason", .str "capacity"),
   ("decision_time_seconds", .num (25 / 2)),
   ("recorded_at_utc", .str "2024-01-01T00:00:00Z")]

/-- An expert decision payload carrying only the deprecated alias names
for truck and note. -/
def deprecatedOnlyDecision : PyVal := .dict
  [("feedback_id", .str "F1"), ("conduce_id", .str "C1"),
   ("expert_assigned_truck_id", .str "T9"), ("expert_notes", .str "urgent"),
   ("primary_reason", .str "capacity"), ("decision_time_seconds", .num (25 / 2)),
   ("recorded_at_utc", .str "2024-01-01T00:00:00Z")]

/-- The spec's scenario-3 historic delivery payload. -/
def historicB1 : PyVal := .dict
  [("ingestion_batch_id", .str "B1"), ("truck_license_plate", .str "XYZ-1"),
   ("delivery_date", .str "2024-02-01"), ("client_name", .str "ACME"),
   ("raw_description", .str "CEMENTO GRIS 50KG"), ("delivery_address", .str "Av. 1"),
   ("latitude", .num 18), ("longitude", .num (-69)),
   ("service_time_minutes", .num 15)]

/-- The parse of `telemetryF1`. -/
def telemetryF1Parsed : TelemetryEvent :=
  ⟨"F1", "RouteComputed", "A1", "2024-01-01T00:00:00Z", []⟩

/-- The race configuration: the `"F1"` row already exists (written by a
concurrent instance), but this instance's existence query raises, so the
in-process check misses it and only the unique key constraint
deduplicates. -/
def stRace : ServiceState :=
  { db := Option.some storeF1, geminiConfigured := true, checkRaises := true,
    insertRaises := false }

/-- The historic enrichment built from a response object that carries
none of the expected keys, for the scenario-3 event. -/
def historicEnrB1 : IntelligenceEnrichment :=
  mkHistoricEnrichment "B1_XYZ-1_2024-02-01" "CEMENTO GRIS 50KG" Option.none Option.none
    Option.none false Option.none false emptyAiJson 0

/-! ## Helper lemmas -/

/-- On the embedded code, every expert-decision processing call ends in
the error log of line 396 with nothing stored and no Gemini call: the
first attribute access on the field-less `ExpertDecisionEvent` raises. -/
theorem lem_expert_decision_errs (st : ServiceState) (orc : Option AiJson) (v : PyVal) :
    process_expert_decision st orc v = ⟨st.db, 0, Outcome.errorLogged⟩ := by
  cases v <;> rfl

/-- Likewise, every historic-delivery processing call ends in the error
log of line 627: the key-building attribute access of line 479 raises. -/
theorem lem_historic_delivery_errs (st : ServiceState) (orc : Option AiJson) (v : PyVal)
    (ih : Bool) :
    process_historic_delivery st orc v ih = ⟨st.db, 0, Outcome.errorLogged⟩ := by
  cases v <;> rfl

/-- A telemetry processing call with an unparseable response body ends in
one of four terminal states, never touching the table. -/
theorem lem_telemetry_none_cases (st : ServiceState) (v : PyVal) :
    process_telemetry_event st Option.none v = ⟨st.db, 0, Outcome.errorLogged⟩ ∨
    process_telemetry_event st Option.none v = ⟨st.db, 0, Outcome.duplicateSkip⟩ ∨
    process_telemetry_event st Option.none v = ⟨st.db, 1, Outcome.errorLogged⟩ ∨
    process_telemetry_event st Option.none v = ⟨st.db, 0, Outcome.geminiSkipped⟩ := by
  cases hp : telemetryParse v with
  | error e =>
    left
    simp [process_telemetry_event, hp]
  | ok t =>
    cases hch : check_enrichment_exists st.db st.checkRaises t.event_id
    · cases hg : st.geminiConfigured
      · right; right; right
        simp [process_telemetry_event, hp, hch, hg]
      · right; right; left
        simp [process_telemetry_event, hp, hch, hg]
    · right; left
      simp [process_telemetry_event, hp, hch]

/-- A record whose payload is a mapping never escapes the per-record
handler: `consumeStep` returns `.ok`. -/
theorem lem_consumeStep_dict_ok (st : ServiceState) (orc : Option AiJson) (m : KafkaMessage)
    (fs : List (String × PyVal)) (hv : m.value = PyVal.dict fs) :
    ∃ out, consumeStep st orc m = Except.ok out := by
  cases h : dispatchRecord st orc m.topic m.value with
  | error e =>
    refine ⟨(st, StepLog.recordErrorLogged), ?_⟩
    rw [hv] at h
    simp [consumeStep, hv, logLineAccess, h]
  | ok r =>
    refine ⟨({ st with db := r.db }, StepLog.processed r.outcome), ?_⟩
    rw [hv] at h
    simp [consumeStep, hv, logLineAccess, h]

/-! ## Claim theorems -/

/-- C1: the claimed decision-side behaviour cannot occur: because
`ExpertDecisionEvent` declares no fields, `process_expert_decision`
raises `AttributeError` at `decision.feedback_id` (line 343) on every
payload and every database state — before the existence check ever runs
— and the caught exception is logged as a processing error.  It never
terminates as a duplicate skip, makes no annotation call and leaves the
table unchanged, even when a row under the event's identifier already
exists. -/
theorem c1_decision_event_always_fails (st : ServiceState) (orc : Option AiJson) (v : PyVal) :
    process_expert_decision st orc v = ⟨st.db, 0, Outcome.errorLogged⟩ ∧
    (process_expert_decision st orc v).outcome ≠ Outcome.duplicateSkip := by
  refine ⟨lem_expert_decision_errs st orc v, ?_⟩
  rw [lem_expert_decision_errs st orc v]
  exact (by decide : Outcome.errorLogged ≠ Outcome.duplicateSkip)

/-- C4: the composite-key expression of line 479 would indeed join batch
id, plate and date with `"_"`, but the code never reaches it: the first
of the three attribute reads raises on the field-less
`HistoricDeliveryEvent`, so every historic event — the scenario-3
payload `historicB1` included — ends in the error log with nothing
persisted and nothing ever skipped as a duplicate. -/
theorem c4_historic_key_never_derived (st : ServiceState) (orc : Option AiJson) (v : PyVal)
    (ih : Bool) :
    historicEventId "B1" "XYZ-1" "2024-02-01" = "B1_XYZ-1_2024-02-01" ∧
    process_historic_delivery st orc v ih = ⟨st.db, 0, Outcome.errorLogged⟩ ∧
    process_historic_delivery stCfg (Option.some emptyAiJson) historicB1 true =
      ⟨stCfg.db, 0, Outcome.errorLogged⟩ := by
  exact ⟨rfl, lem_historic_delivery_errs st orc v ih,
    lem_historic_delivery_errs stCfg (Option.some emptyAiJson) historicB1 true⟩

/-- C7: no alias reconciliation and no required-field rejection happens:
a decision payload missing every field (current and deprecated names
alike) still validates against the field-less model instead of being
rejected as malformed; the resolved field is never readable
(`selected_truck_id` raises); and a payload carrying only deprecated
names is not enriched but error-logged.  The `__post_init__` fallback
block of lines 147-157 sits at module scope and would not be invoked by
pydantic in any case. -/
theorem c7_alias_resolution_never_runs :
    expertDecisionParse (PyVal.dict []) = Except.ok ExpertDecisionEvent.mk ∧
    ExpertDecisionEvent.selected_truck_id ExpertDecisionEvent.mk =
      Except.error PyError.attributeError ∧
    process_expert_decision stCfg (Option.some emptyAiJson) deprecatedOnlyDecision =
      ⟨stCfg.db, 0, Outcome.errorLogged⟩ := by
  exact ⟨rfl, rfl, rfl⟩

/-- C5, counterexample: the historic-ingestion tag is *not* matched
case-insensitively — both lower-case and upper-case variants of the tag
fall through every rule and are dropped as unknown, while only the exact
spelling routes to the historic handler. -/
theorem c5_counterexample :
    cloudEventRoute "historicdeliveryingested" = RouteKind.unknown ∧
    cloudEventRoute "HISTORICDELIVERYINGESTED" = RouteKind.unknown ∧
    cloudEventRoute "HistoricDeliveryIngested" = RouteKind.historic := by
  exact ⟨rfl, rfl, rfl⟩

/-- C5, amended: the dispatch is an ordered first-match-wins chain in
which the historic rule is a case-sensitive exact comparison, followed by
case-insensitive substring rules for decision (`"expert"`/`"decision"`)
and telemetry, with unknown tags dropped — stated as equivalence with an
explicit matcher table. -/
theorem c5_dispatch_table (t : String) :
    cloudEventRoute t = routeByTable amendedDispatchTable t := by
  simp only [routeByTable, amendedDispatchTable, ruleMatches, ruleKind, cloudEventRoute]
  cases hH : (t == "HistoricDeliveryIngested") <;>
    cases hE : pyInStr "expert" (pyLower t) <;>
      cases hD : pyInStr "decision" (pyLower t) <;>
        cases hT : pyInStr "telemetry" (pyLower t) <;>
          simp [hH, hE, hD, hT]

/-- C6, counterexample: a tag containing `"telemetry"` (case-insensitive)
is not always routed to the telemetry kind: the decision substring rules
run first, so `"expert.telemetry.v1"` routes to the decision handler. -/
theorem c6_counterexample :
    pyInStr "telemetry" (pyLower "expert.telemetry.v1") = true ∧
    cloudEventRoute "expert.telemetry.v1" = RouteKind.decision ∧
    RouteKind.decision ≠ RouteKind.telemetry := by
  exact ⟨rfl, rfl, by decide⟩

/-- C6, amended: a tag containing `"telemetry"` case-insensitively is
routed to the telemetry kind regardless of casing and surrounding
characters, *provided* it contains neither `"expert"` nor `"decision"`
case-insensitively (those earlier rules win otherwise; the exact
historic tag contains no `"telemetry"`, so it needs no extra
hypothesis). -/
theorem c6_telemetry_routing (t : String) (hT : pyInStr "telemetry" (pyLower t) = true)
    (hE : pyInStr "expert" (pyLower t) = false)
    (hD : pyInStr "decision" (pyLower t) = false) :
    cloudEventRoute t = RouteKind.telemetry := by
  unfold cloudEventRoute
  cases hH : (t == "HistoricDeliveryIngested") with
  | false => simp [hH, hE, hD, hT]
  | true =>
    have ht : t = "HistoricDeliveryIngested" := by
      simpa using hH
    rw [ht] at hT
    exact absurd hT (by decide)

/-- C6, witness: a tag with unusual casing and surrounding characters is
routed to telemetry. -/
theorem c6_telemetry_routing_witness :
    cloudEventRoute "Fleet.TELEMETRY.v2" = RouteKind.telemetry :=
  c6_telemetry_routing "Fleet.TELEMETRY.v2" (by decide) (by decide) (by decide)

/-- C3, counterexample: an insert whose key already exists — first with
the store healthy (pure uniqueness violation), then with the store also
raising — ends in the *generic* `"Error storing enrichment"` error-level
log either way, with no reclassification: the race simulated in `stRace`
(row present, existence query raising) ends the telemetry call in
`enriched`-with-`errorStoring`, not in `duplicateSkip`. -/
theorem c3_counterexample :
    store_enrichment (Option.some storeF1) false recF1 =
      (Option.some storeF1, StoreLog.errorStoring) ∧
    store_enrichment (Option.some storeF1) true recF1 =
      (Option.some storeF1, StoreLog.errorStoring) ∧
    StoreLog.errorStoring ≠ StoreLog.infoStored ∧
    process_telemetry_event stRace (Option.some emptyAiJson) telemetryF1 =
      ⟨Option.some storeF1, 1, Outcome.enriched StoreLog.errorStoring⟩ ∧
    Outcome.enriched StoreLog.errorStoring ≠ Outcome.duplicateSkip := by
  exact ⟨rfl, rfl, by decide, rfl, by decide⟩

/-- C3, amended: an insert whose key already exists is caught inside
`store_enrichment` and never re-raised — the table is unchanged and the
consumer keeps running — but it is logged through the same error-level
path as every other insert failure; the code does not distinguish
uniqueness violations, reclassify them as Duplicate, or log them as a
benign skip. -/
theorem c3_unique_violation_swallowed (s : Store) (iR : Bool) (e : IntelligenceEnrichment)
    (h : storeHasKey s e.event_id = true) :
    store_enrichment (Option.some s) iR e = (Option.some s, StoreLog.errorStoring) := by
  simp [store_enrichment, h]

/-- C3, witness: inserting a fresh row under the already-stored key
`"F1"` is swallowed and error-logged. -/
theorem c3_unique_violation_swallowed_witness :
    store_enrichment (Option.some storeF1) false
      { recF1 with ai_reasoning := "second attempt" } =
      (Option.some storeF1, StoreLog.errorStoring) :=
  c3_unique_violation_swallowed storeF1 false
    { recF1 with ai_reasoning := "second attempt" } (by rfl)

/-- C8, counterexample: for the historic kind the defaults are not
neutral: with every optional key missing from the response, the built
enrichment has confidence `50`, a non-empty synthesized tag list, and a
non-empty synthesized reasoning string. -/
theorem c8_counterexample :
    historicEnrB1.ai_confidence_score = 50 ∧
    historicEnrB1.ai_confidence_score ≠ 0 ∧
    historicEnrB1.ai_tags = ["PRODUCT:CEMENTO GRIS 50KG"] ∧
    historicEnrB1.ai_reasoning ≠ "" := by
  refine ⟨rfl, by decide, rfl, by decide⟩

/-- C8, amended: for the decision and telemetry kinds the claim holds —
a parsed response missing every optional key yields the neutral defaults
(empty tags, zero confidence, empty reasoning, empty actions) and the
telemetry result is persisted successfully; the historic builder instead
defaults the confidence (`capacity_score`) to `50.0` and synthesizes
non-empty tags and reasoning. -/
theorem c8_neutral_defaults (st : ServiceState) (s : Store) (v : PyVal) (t : TelemetryEvent)
    (hp : telemetryParse v = Except.ok t) (hdb : st.db = Option.some s)
    (hg : st.geminiConfigured = true) (hc : st.checkRaises = false)
    (hi : st.insertRaises = false) (hk : storeHasKey s t.event_id = false) :
    (mkTelemetryEnrichment t emptyAiJson 0).ai_tags = [] ∧
    (mkTelemetryEnrichment t emptyAiJson 0).ai_confidence_score = 0 ∧
    (mkTelemetryEnrichment t emptyAiJson 0).ai_reasoning = "" ∧
    (mkTelemetryEnrichment t emptyAiJson 0).ai_suggested_actions = [] ∧
    (mkDecisionEnrichment "F1" emptyAiJson 0).ai_tags = [] ∧
    (mkDecisionEnrichment "F1" emptyAiJson 0).ai_confidence_score = 0 ∧
    (mkDecisionEnrichment "F1" emptyAiJson 0).ai_reasoning = "" ∧
    (mkDecisionEnrichment "F1" emptyAiJson 0).ai_suggested_actions = [] ∧
    process_telemetry_event st (Option.some emptyAiJson) v =
      ⟨Option.some (s ++ [mkTelemetryEnrichment t emptyAiJson 0]), 1,
        Outcome.enriched StoreLog.infoStored⟩ := by
  refine ⟨rfl, rfl, rfl, rfl, rfl, rfl, rfl, rfl, ?_⟩
  simp only [process_telemetry_event, hp]
  rw [hdb, hc]
  simp only [check_enrichment_exists, Bool.false_eq_true, if_false, hk, hg, if_true]
  simp [store_enrichment, hi, mkTelemetryEnrichment, hk]

/-- C8, witness: the fresh telemetry event `telemetryV1` with an
all-defaults response is enriched with the neutral values and stored. -/
theorem c8_neutral_defaults_witness :
    process_telemetry_event stCfg (Option.some emptyAiJson) telemetryV1 =
      ⟨Option.some ([] ++ [mkTelemetryEnrichment telemetryV1Parsed emptyAiJson 0]), 1,
        Outcome.enriched StoreLog.infoStored⟩ :=
  (c8_neutral_defaults stCfg [] telemetryV1 telemetryV1Parsed rfl rfl rfl rfl rfl
      rfl).2.2.2.2.2.2.2.2

/-- C9: when the annotation response body cannot be parsed as JSON
(`orc = none` makes `json.loads` raise), processing ends inside the
per-event handler: the table is untouched for both the telemetry and the
decision path, at most one annotation call is made (no retry), and
whenever the call was actually made the event terminates in the
error-logged (`Failed`) state.  Totality of the embedded functions
reflects that the exception never escapes to the consumer loop. -/
theorem c9_unparseable_response_not_persisted (st : ServiceState) (v : PyVal) :
    (process_telemetry_event st Option.none v).db = st.db ∧
    (process_expert_decision st Option.none v).db = st.db ∧
    (process_telemetry_event st Option.none v).annotationCalls ≤ 1 ∧
    ((process_telemetry_event st Option.none v).annotationCalls = 1 →
      (process_telemetry_event st Option.none v).outcome = Outcome.errorLogged) := by
  have hd := lem_expert_decision_errs st Option.none v
  rcases lem_telemetry_none_cases st v with h | h | h | h <;> rw [h, hd]
  · exact ⟨rfl, rfl, (by decide : (0 : Nat) ≤ 1), fun _ => rfl⟩
  · exact ⟨rfl, rfl, (by decide : (0 : Nat) ≤ 1),
      fun h1 => absurd h1 (by decide : ¬((0 : Nat) = 1))⟩
  · exact ⟨rfl, rfl, (by decide : (1 : Nat) ≤ 1), fun _ => rfl⟩
  · exact ⟨rfl, rfl, (by decide : (0 : Nat) ≤ 1),
      fun h1 => absurd h1 (by decide : ¬((0 : Nat) = 1))⟩

/-- C9, witness: a fresh telemetry event in a configured service whose
response fails to parse makes exactly one annotation call and ends
error-logged with nothing stored. -/
theorem c9_unparseable_response_not_persisted_witness :
    (process_telemetry_event stCfg Option.none telemetryV1).outcome = Outcome.errorLogged :=
  (c9_unparseable_response_not_persisted stCfg telemetryV1).2.2.2 rfl

/-- C10: the in-process existence check fails open — `False` when the
database is not configured and `False` when the query raises, never an
exception (the embedding is total) — so the orchestrator proceeds: in
the simulated race (row already stored, query raising) the telemetry
path still makes its one annotation call and attempts the insert, which
the unique key constraint turns into the swallowed `errorStoring`
outcome, leaving exactly the one original row. -/
theorem c10_existence_check_fails_open (s : Store) (k : String) (st : ServiceState)
    (v : PyVal) (t : TelemetryEvent) (resp : AiJson) :
    check_enrichment_exists Option.none false k = false ∧
    check_enrichment_exists Option.none true k = false ∧
    check_enrichment_exists (Option.some s) true k = false ∧
    (telemetryParse v = Except.ok t → st.checkRaises = true → st.geminiConfigured = true →
      st.db = Option.some s → st.insertRaises = false → storeHasKey s t.event_id = true →
      process_telemetry_event st (Option.some resp) v =
        ⟨Option.some s, 1, Outcome.enriched StoreLog.errorStoring⟩) := by
  refine ⟨rfl, rfl, rfl, ?_⟩
  intro hp hc hg hdb hi hk
  simp only [process_telemetry_event, hp]
  rw [hdb, hc]
  simp [check_enrichment_exists, hg, store_enrichment, hi, mkTelemetryEnrichment, hk]

/-- C10, witness: the race configuration `stRace` concretely yields one
annotation call and the constraint-deduplicated single row. -/
theorem c10_existence_check_fails_open_witness :
    process_telemetry_event stRace (Option.some emptyAiJson) telemetryF1 =
      ⟨Option.some storeF1, 1, Outcome.enriched StoreLog.errorStoring⟩ :=
  (c10_existence_check_fails_open storeF1 "k" stRace telemetryF1 telemetryF1Parsed
      emptyAiJson).2.2.2 rfl rfl rfl rfl rfl rfl

/-- C2, counterexample: a record whose payload decoded to a JSON array
raises in the line-267 log access, outside the per-record handler: the
outer handler ends the loop, so the following perfectly processable
telemetry record is never processed (no step log, fatal flag set, table
unchanged) — whereas the same good record alone is processed without a
fatal stop. -/
theorem c2_counterexample :
    consume_kafka_messages stCfg
      [(badListMsg, Option.some emptyAiJson), (goodTelemetryMsg, Option.some emptyAiJson)] =
      (stCfg, [], true) ∧
    (consume_kafka_messages stCfg [(goodTelemetryMsg, Option.some emptyAiJson)]).2.2 = false := by
  exact ⟨rfl, rfl⟩

/-- C2, amended: per-record failure isolation holds for every record
whose payload is an attribute-value mapping: on such streams no
exception escapes an iteration, the loop never terminates fatally and it
emits one step log per delivered record. -/
theorem c2_mapping_payload_isolation (st : ServiceState)
    (msgs : List (KafkaMessage × Option AiJson))
    (h : ∀ p ∈ msgs, ∃ fs, (Prod.fst p).value = PyVal.dict fs) :
    (consume_kafka_messages st msgs).2.2 = false ∧
    (consume_kafka_messages st msgs).2.1.length = msgs.length := by
  induction msgs generalizing st with
  | nil => exact ⟨rfl, rfl⟩
  | cons p rest ihr =>
    obtain ⟨m, orc⟩ := p
    obtain ⟨fs, hfs⟩ := h (m, orc) (by simp)
    obtain ⟨out, hout⟩ := lem_consumeStep_dict_ok st orc m fs hfs
    obtain ⟨st', l⟩ := out
    have hrest := ihr st' (fun q hq => h q (by simp [hq]))
    rcases hrec : consume_kafka_messages st' rest with ⟨stf, ls, fatal⟩
    rw [hrec] at hrest
    simp only [consume_kafka_messages, hout, hrec]
    simp only at hrest
    exact ⟨hrest.1, by simp [hrest.2]⟩

/-- C2, witness: a singleton mapping-payload stream is fully processed
with no fatal stop. -/
theorem c2_mapping_payload_isolation_witness :
    (consume_kafka_messages stCfg [(goodTelemetryMsg, Option.some emptyAiJson)]).2.2 = false ∧
    (consume_kafka_messages stCfg
        [(goodTelemetryMsg, Option.some emptyAiJson)]).2.1.length =
      [(goodTelemetryMsg, Option.some emptyAiJson)].length :=
  c2_mapping_payload_isolation stCfg [(goodTelemetryMsg, Option.some emptyAiJson)]
    (fun p hp => by
      simp only [List.mem_singleton] at hp
      rw [hp]
      exact ⟨_, rfl⟩)
